import Mathlib

/-!
# miniproxy-go: `m_server/server.go`

A shallow embedding of the server lifecycle code: construction (`NewServer`,
`InitConfig`, `InitSocks`), the hand-off to the accept loop (`StartServer`,
`ServeSocks`), the drain flag (`CloseNotifyCh`, `CheckGracefulShutdown`) and the
shutdown sequence (`ShutdownHandler`, `closeListeners`).

Conventions.
* Go's `int64` (and `time.Duration`) is an `Int` reduced by `wrapInt64`.
* A Go statement that can fault returns `Except String _`, the string being the
  run-time panic message.
* `ShutdownHandler` is a sequence of steps over a process record `Proc` that
  carries the server, the effects performed so far and how the process stands
  (running, exited with a status, or panicked).
* What the Go scheduler decides (which `select` case fires) and what the
  `net.Listener` implementation answers to `Close` are inputs.
* `log.Logger` is taken as initialised: a log call records its line and does not fault.
-/

namespace MiniProxy

/-! ## Machine integers and durations -/

/-- Two's-complement reduction of an integer to Go's `int64`. -/
def wrapInt64 (x : Int) : Int := (x + 2 ^ 63) % 2 ^ 64 - 2 ^ 63

/-- The constant `time.Second`: a `time.Duration` counts nanoseconds. -/
def Second : Int := 1000000000

/-- The conversion `time.Duration(x)` of an integer to the `int64` type `time.Duration`. -/
def toDuration (x : Int) : Int := wrapInt64 x

/-- The product `a * b` of two `time.Duration` values: `int64` multiplication. -/
def durationMul (a b : Int) : Int := wrapInt64 (a * b)

/-! ## Configuration -/

/-- Modelled from the spec: `m_config.Conf` is declared in package `m_config`, which is
not among the sources. Only the fields `server.go` reads are kept: the port, the read
timeout and the graceful-shutdown timeout (integers, in seconds, printed with `%d` and
converted with `time.Duration(..)`) and the remote server address. The integers are
unbounded here; `toDuration` reduces them to `int64` where the code converts them. -/
structure ConfigBasic where
  Port : Int
  ClientReadTimeout : Int
  GracefulShutdownTimeout : Int
  RemoteServer : String
  deriving DecidableEq, Repr

/-- Modelled from the spec: `m_config.Conf`, of which `server.go` reads `Config.Server`. -/
structure Conf where
  Server : ConfigBasic
  deriving DecidableEq, Repr

/-- The zero value of `m_config.Conf`, as `new(Server)` leaves the `Config` field. -/
def Conf.zero : Conf := ⟨⟨0, 0, 0, ""⟩⟩

/-! ## Channels and listeners -/

/-- State of the `chan bool` held in `CloseNotifyCh`. `server.go` never sends on it,
so an open channel holds no value and has no pending sender. -/
inductive Chan where
  | nil
  | open
  | closed
  deriving DecidableEq, Repr

/-- The statement `close(c)`: it panics on a nil channel and on a closed one. -/
def Chan.close : Chan → Except String Chan
  | Chan.nil => Except.error "close of nil channel"
  | Chan.closed => Except.error "close of closed channel"
  | Chan.open => Except.ok Chan.closed

/-- Whether the receive `<-c` in a `select` with a `default` case is ready: only a
closed channel delivers (its zero value); a nil or an open, empty channel does not. -/
def Chan.recvReady : Chan → Bool
  | Chan.closed => true
  | _ => false

/-- A bound `net.Listener`. The interface leaves the answer of `Close` to the
implementation: `closeErr` is the error `Close` answers on the listener while it is
open, `closeErrClosed` the one it answers once the listener is closed (none for nil; a
`*net.TCPListener` answers nil, then `use of closed network connection`). `closeCalls`
counts the calls of `Close`. -/
structure Listener where
  addr : String
  closed : Bool
  closeCalls : Nat
  closeErr : Option String
  closeErrClosed : Option String
  deriving DecidableEq, Repr

/-- The call `l.Close()`: the listener is closed, the call is counted, and the
implementation's answer for the state the listener was in is returned. -/
def Listener.Close (l : Listener) : Listener × Option String :=
  ({ l with closed := true, closeCalls := l.closeCalls + 1 },
    if l.closed then l.closeErrClosed else l.closeErr)

/-- The call `l.Addr()`. -/
def Listener.Addr (l : Listener) : String := l.addr

/-! ## The server -/

/-- The struct `Server`. Durations are `int64` nanoseconds, `listener` is the interface
value (`none` for nil), `connWaitGroup` is the counter of the `sync.WaitGroup`, and
`Cipher` is the interface value `m_core.Cipher`, which `server.go` never touches. -/
structure Server where
  Addr : String
  Cipher : Option Nat
  ReadTimeout : Int
  WriteTimeout : Int
  TlsHandshakeTimeout : Int
  GracefulShutdownTimeout : Int
  CloseNotifyCh : Chan
  listener : Option Listener
  connWaitGroup : Nat
  Config : Conf
  ConfRoot : String
  Version : String
  deriving DecidableEq, Repr

/-- The value `new(Server)`: every field is the zero value of its type. -/
def Server.new : Server :=
  { Addr := "", Cipher := none, ReadTimeout := 0, WriteTimeout := 0,
    TlsHandshakeTimeout := 0, GracefulShutdownTimeout := 0, CloseNotifyCh := Chan.nil,
    listener := none, connWaitGroup := 0, Config := Conf.zero, ConfRoot := "",
    Version := "" }

/-- `InitConfig`: the address is `":" ++ port`, the read timeout is set only when the
configured one is not zero, the graceful-shutdown timeout is always set. -/
def Server.InitConfig (srv : Server) : Server :=
  let srv := { srv with Addr := ":" ++ toString srv.Config.Server.Port }
  let srv :=
    if srv.Config.Server.ClientReadTimeout ≠ 0 then
      { srv with ReadTimeout := durationMul (toDuration srv.Config.Server.ClientReadTimeout) Second }
    else srv
  { srv with
    GracefulShutdownTimeout :=
      durationMul (toDuration srv.Config.Server.GracefulShutdownTimeout) Second }

/-- `NewServer`: a fresh server, its configuration applied, and a fresh channel. -/
def NewServer (cfg : Conf) (confRoot : String) (version : String) : Server :=
  let s := Server.new
  let s := { s with Config := cfg }
  let s := { s with ConfRoot := confRoot }
  let s := s.InitConfig
  let s := { s with CloseNotifyCh := Chan.open }
  let s := { s with Version := version }
  s

/-- `InitSocks`: the body is `return nil`; the server is not touched. -/
def Server.InitSocks (_srv : Server) : Option String := none

/-- `CheckGracefulShutdown`: a `select` on a receive from `CloseNotifyCh` with a
`default` case. -/
def Server.CheckGracefulShutdown (srv : Server) : Bool :=
  if srv.CloseNotifyCh.recvReady then true else false

/-- The statement `close(srv.CloseNotifyCh)` of `ShutdownHandler`. -/
def Server.closeNotify (srv : Server) : Except String Server :=
  match srv.CloseNotifyCh.close with
  | Except.ok c => Except.ok { srv with CloseNotifyCh := c }
  | Except.error e => Except.error e

/-! ## Effects and the process -/

/-- The effects of `server.go` that are visible outside the server struct. -/
inductive Event where
  | logInfo (msg : String)
  | logError (msg : String)
  | closeNotifyCh
  | listenerClose
  | goConnWait
  | timeAfter (d : Int)
  | recvConnFin
  | recvTimer
  | loggerClose
  | osExit (code : Int)
  | goPanic (msg : String)
  deriving DecidableEq, Repr

/-- How the process stands: still running the handler (so that a handler whose steps
are all done and that is still `running` has returned to its caller), exited with a
status, or terminated by a run-time panic. -/
inductive Status where
  | running
  | exited (code : Int)
  | panicked (msg : String)
  deriving DecidableEq, Repr

/-- The process while a handler runs: the server, the effects so far (oldest first),
and the status. -/
structure Proc where
  srv : Server
  events : List Event
  status : Status
  deriving DecidableEq, Repr

/-- The process at the entry of a handler called on `srv`. -/
def Proc.start (srv : Server) : Proc := { srv := srv, events := [], status := Status.running }

/-- Record an effect. -/
def Proc.emit (p : Proc) (e : Event) : Proc := { p with events := p.events ++ [e] }

/-- A run-time panic: it is recorded and nothing runs after it. -/
def Proc.fault (p : Proc) (msg : String) : Proc :=
  { p with events := p.events ++ [Event.goPanic msg], status := Status.panicked msg }

/-- Run a statement only while the process is running. -/
def Proc.guard (f : Proc → Proc) (p : Proc) : Proc :=
  match p.status with
  | Status.running => f p
  | _ => p

/-- `closeListeners`: `srv.listener.Close()`, and an error log when it answers an error.
The method call on a nil interface value panics. -/
def closeListeners (p : Proc) : Proc :=
  match p.srv.listener with
  | none => p.fault "runtime error: invalid memory address or nil pointer dereference"
  | some l =>
    let (l1, err) := l.Close
    let p := ({ p with srv := { p.srv with listener := some l1 } } : Proc).emit Event.listenerClose
    match err with
    | some e => p.emit (Event.logError ("closeListeners(): " ++ e ++ ", " ++ l1.Addr))
    | none => p

/-- Which case of the `select` of `ShutdownHandler` fires first: the scheduler's choice. -/
inductive Winner where
  | connFin
  | timer
  deriving DecidableEq, Repr

/-- The duration `ShutdownHandler` hands to `time.After`:
`time.Duration(shutdownTimeout) * time.Second`, with `shutdownTimeout` read from the
configuration. -/
def Server.shutdownTimerDuration (srv : Server) : Int :=
  durationMul (toDuration srv.Config.Server.GracefulShutdownTimeout) Second

/-- The statements of `ShutdownHandler`, in program order. Each one runs only while the
process is running. The `for`/`select` loop is one step: both cases leave the loop. -/
def shutdownSteps (sig : String) (w : Winner) : List (Proc → Proc) :=
  [ -- log.Logger.Info("get signal %s, graceful shutdown in %ds", sig, shutdownTimeout)
    Proc.guard fun p => p.emit (Event.logInfo ("get signal " ++ sig ++ ", graceful shutdown in "
      ++ toString p.srv.Config.Server.GracefulShutdownTimeout ++ "s")),
    -- close(srv.CloseNotifyCh)
    Proc.guard fun p =>
      match p.srv.closeNotify with
      | Except.ok s => ({ p with srv := s } : Proc).emit Event.closeNotifyCh
      | Except.error e => p.fault e,
    -- srv.closeListeners()
    Proc.guard closeListeners,
    -- go func() { srv.connWaitGroup.Wait(); connFinCh <- true }()
    Proc.guard fun p => p.emit Event.goConnWait,
    -- shutdownTimer := time.After(time.Duration(shutdownTimeout) * time.Second)
    Proc.guard fun p => p.emit (Event.timeAfter p.srv.shutdownTimerDuration),
    -- select { case <-connFinCh: ... case <-shutdownTimer: ... }
    Proc.guard fun p =>
      match w with
      | Winner.connFin =>
        (p.emit Event.recvConnFin).emit (Event.logInfo "graceful shutdown success.")
      | Winner.timer =>
        (p.emit Event.recvTimer).emit (Event.logInfo "graceful shutdown timeout."),
    -- log.Logger.Close()
    Proc.guard fun p => p.emit Event.loggerClose,
    -- os.Exit(0)
    Proc.guard fun p => { p.emit (Event.osExit 0) with status := Status.exited 0 } ]

/-- `ShutdownHandler` called on `srv`: all its statements, in order. -/
def ShutdownHandler (sig : String) (w : Winner) (srv : Server) : Proc :=
  (shutdownSteps sig w).foldl (fun p f => f p) (Proc.start srv)

/-- The process at the entry of `ShutdownHandler` and after each of its statements. -/
def ShutdownHandler.states (sig : String) (w : Winner) (srv : Server) : List Proc :=
  (shutdownSteps sig w).scanl (fun p f => f p) (Proc.start srv)

/-- `ServeSocks`: the call `s.Serve(s.listener, s.listener, "tcp")`. The method `Serve`
is not defined in `server.go`; it is a parameter. -/
def Server.ServeSocks (Serve : Server → Option Listener → Option Listener → String → Option String)
    (s : Server) : Option String :=
  Serve s s.listener s.listener "tcp"

/-- `StartServer`: build the server, run `InitSocks`, and hand over to `ServeSocks`; the
result is the error received from `serveChan`. The error log of the failing branch is
not part of the result. -/
def StartServer (Serve : Server → Option Listener → Option Listener → String → Option String)
    (cfg : Conf) (version : String) (confRoot : String) : Option String :=
  let s := NewServer cfg confRoot version
  match s.InitSocks with
  | some err => some err
  | none => s.ServeSocks Serve

/-! ## Operations on the servers of a process -/

/-- The servers a process has allocated, by address: `NewServer` allocates a new one
and leaves the others as they are. -/
abbrev Heap := List Server

/-- The operations of `server.go` other than the shutdown handler, each on the server
at an address. -/
inductive Op where
  | NewServer (cfg : Conf) (confRoot : String) (version : String)
  | InitConfig (i : Nat)
  | InitSocks (i : Nat)
  | closeListeners (i : Nat)
  | CheckGracefulShutdown (i : Nat)
  deriving DecidableEq, Repr

/-- Apply a method to the server at address `i`; no server, no change. -/
def Heap.update (h : Heap) (i : Nat) (f : Server → Server) : Heap :=
  match h[i]? with
  | some s => h.set i (f s)
  | none => h

/-- The heap after an operation. `InitSocks` and `CheckGracefulShutdown` only compute a
result; `closeListeners` that panics leaves the server as it was. -/
def Op.exec : Op → Heap → Heap
  | Op.NewServer cfg confRoot version, h => h ++ [MiniProxy.NewServer cfg confRoot version]
  | Op.InitConfig i, h => h.update i Server.InitConfig
  | Op.InitSocks i, h => h.update i fun s => match s.InitSocks with | _ => s
  | Op.closeListeners i, h => h.update i fun s => (MiniProxy.closeListeners (Proc.start s)).srv
  | Op.CheckGracefulShutdown i, h => h.update i fun s => match s.CheckGracefulShutdown with | _ => s

/-- The heap after a sequence of operations. -/
def Heap.run (ops : List Op) (h : Heap) : Heap := ops.foldl (fun h op => op.exec h) h

/-- The answer of `CheckGracefulShutdown` on the server at address `i`. -/
def Heap.check (h : Heap) (i : Nat) : Option Bool := h[i]?.map Server.CheckGracefulShutdown

/-- The statement `close(srv.CloseNotifyCh)` on the server at address `i`. -/
def Heap.closeNotify (h : Heap) (i : Nat) : Except String Heap :=
  match h[i]? with
  | some s =>
    match s.closeNotify with
    | Except.ok s1 => Except.ok (h.set i s1)
    | Except.error e => Except.error e
  | none => Except.error "runtime error: invalid memory address or nil pointer dereference"

/-- The effects of the `select` of `ShutdownHandler`, by the case that fires. -/
def raceEvents : Winner → List Event
  | Winner.connFin => [Event.recvConnFin, Event.logInfo "graceful shutdown success."]
  | Winner.timer => [Event.recvTimer, Event.logInfo "graceful shutdown timeout."]

/-- The error log of `closeListeners`, when `Close` answers an error. -/
def closeErrEvents (l : Listener) : List Event :=
  match l.Close.2 with
  | some e => [Event.logError ("closeListeners(): " ++ e ++ ", " ++ l.addr)]
  | none => []

/-- The first log line of `ShutdownHandler`. -/
def signalLog (sig : String) (srv : Server) : Event :=
  Event.logInfo ("get signal " ++ sig ++ ", graceful shutdown in "
    ++ toString srv.Config.Server.GracefulShutdownTimeout ++ "s")

/-- The state of `CloseNotifyCh` of the server at address `i`. -/
def Heap.gate (h : Heap) (i : Nat) : Option Chan := h[i]?.map Server.CloseNotifyCh

/-! ## Concrete inputs -/

/-- A configuration with port 8080 whose two timeouts are zero (or absent). -/
def zeroTimeoutConf : Conf := ⟨⟨8080, 0, 0, ""⟩⟩

/-- A configuration with a read timeout of 30 s and a shutdown timeout of 5 s. -/
def sampleConf : Conf := ⟨⟨8080, 30, 5, ""⟩⟩

/-- A configuration whose two timeouts are 9223372037 s, a value of Go's 64-bit `int`. -/
def hugeTimeoutConf : Conf := ⟨⟨8080, 9223372037, 9223372037, ""⟩⟩

/-- A configuration with a read timeout of 30 s and a shutdown timeout of 9223372037 s. -/
def mixedTimeoutConf : Conf := ⟨⟨8080, 30, 9223372037, ""⟩⟩

/-- A listener bound on port 8080, open, whose `Close` answers no error the first time. -/
def sampleListener : Listener :=
  ⟨"[::]:8080", false, 0, none, some "use of closed network connection"⟩

/-- The server `NewServer` builds from `sampleConf`, with `sampleListener` bound. -/
def boundServer : Server :=
  { NewServer sampleConf "/conf" "1.0" with listener := some sampleListener }

/-- The server `boundServer` while a first `ShutdownHandler` waits in its `select`: the
channel and the listener are closed, the process has not exited. -/
def drainingServer : Server :=
  { boundServer with
    CloseNotifyCh := Chan.closed
    listener := some { sampleListener with closed := true, closeCalls := 1 } }

/-! ## Arithmetic of `int64` -/

/-- An integer in the range of `int64` is its own reduction. -/
theorem wrapInt64_of_range (x : Int) (h1 : -(2 ^ 63) ≤ x) (h2 : x < 2 ^ 63) :
    wrapInt64 x = x := by
  unfold wrapInt64
  omega

/-- A reduction to `int64` is below `2 ^ 63`. -/
theorem wrapInt64_lt (x : Int) : wrapInt64 x < 2 ^ 63 := by
  unfold wrapInt64
  omega

/-- Up to 9223372036 seconds, the product with `time.Second` does not wrap. -/
theorem seconds_exact (x : Int) (h1 : 0 ≤ x) (h2 : x ≤ 9223372036) :
    durationMul (toDuration x) Second = x * 1000000000 := by
  unfold durationMul toDuration Second
  rw [wrapInt64_of_range x (by omega) (by omega)]
  exact wrapInt64_of_range _ (by omega) (by omega)

/-! ## Fields after `InitConfig` -/

/-- `InitConfig` leaves the configuration as it is. -/
theorem initConfig_Config (srv : Server) : srv.InitConfig.Config = srv.Config := by
  by_cases h : srv.Config.Server.ClientReadTimeout = 0 <;> simp [Server.InitConfig, h]

/-- `InitConfig` leaves `CloseNotifyCh` as it is. -/
theorem initConfig_CloseNotifyCh (srv : Server) :
    srv.InitConfig.CloseNotifyCh = srv.CloseNotifyCh := by
  by_cases h : srv.Config.Server.ClientReadTimeout = 0 <;> simp [Server.InitConfig, h]

/-- `InitConfig` leaves the listener as it is. -/
theorem initConfig_listener (srv : Server) : srv.InitConfig.listener = srv.listener := by
  by_cases h : srv.Config.Server.ClientReadTimeout = 0 <;> simp [Server.InitConfig, h]

/-- `InitConfig` leaves `WriteTimeout` as it is. -/
theorem initConfig_WriteTimeout (srv : Server) :
    srv.InitConfig.WriteTimeout = srv.WriteTimeout := by
  by_cases h : srv.Config.Server.ClientReadTimeout = 0 <;> simp [Server.InitConfig, h]

/-- `InitConfig` leaves `TlsHandshakeTimeout` as it is. -/
theorem initConfig_TlsHandshakeTimeout (srv : Server) :
    srv.InitConfig.TlsHandshakeTimeout = srv.TlsHandshakeTimeout := by
  by_cases h : srv.Config.Server.ClientReadTimeout = 0 <;> simp [Server.InitConfig, h]

/-- The shutdown timeout `InitConfig` stores. -/
theorem initConfig_GracefulShutdownTimeout (srv : Server) :
    srv.InitConfig.GracefulShutdownTimeout =
      durationMul (toDuration srv.Config.Server.GracefulShutdownTimeout) Second := by
  by_cases h : srv.Config.Server.ClientReadTimeout = 0 <;> simp [Server.InitConfig, h]

/-- The read timeout after `InitConfig`: the old one when the configured one is 0. -/
theorem initConfig_ReadTimeout (srv : Server) :
    srv.InitConfig.ReadTimeout =
      (if srv.Config.Server.ClientReadTimeout = 0 then srv.ReadTimeout
       else durationMul (toDuration srv.Config.Server.ClientReadTimeout) Second) := by
  by_cases h : srv.Config.Server.ClientReadTimeout = 0 <;> simp [Server.InitConfig, h]

/-! ## Timeouts (`InitConfig`, `NewServer`) -/

/-- C8, as stated, fails: with `ClientReadTimeout = 0` and `GracefulShutdownTimeout = 0`
the four timeouts of the server `NewServer` returns are all 0, so they are not all
strictly positive. -/
theorem newServer_zero_timeouts_not_positive :
    (NewServer zeroTimeoutConf "/conf" "1.0").ReadTimeout = 0 ∧
    (NewServer zeroTimeoutConf "/conf" "1.0").WriteTimeout = 0 ∧
    (NewServer zeroTimeoutConf "/conf" "1.0").TlsHandshakeTimeout = 0 ∧
    (NewServer zeroTimeoutConf "/conf" "1.0").GracefulShutdownTimeout = 0 ∧
    ¬ (0 < (NewServer zeroTimeoutConf "/conf" "1.0").ReadTimeout ∧
       0 < (NewServer zeroTimeoutConf "/conf" "1.0").WriteTimeout ∧
       0 < (NewServer zeroTimeoutConf "/conf" "1.0").TlsHandshakeTimeout ∧
       0 < (NewServer zeroTimeoutConf "/conf" "1.0").GracefulShutdownTimeout) := by
  refine ⟨rfl, rfl, rfl, rfl, ?_⟩
  intro h
  exact absurd h.2.1 (by decide)

/-- C8, amended: after `NewServer`, `WriteTimeout` and `TlsHandshakeTimeout` are always 0
(nothing sets them), `ReadTimeout` is 0 when `ClientReadTimeout` is 0 and that many
seconds otherwise, and `GracefulShutdownTimeout` is the configured number of seconds,
which is 0 for a configured 0: no positive default replaces a zero timeout. -/
theorem newServer_timeouts (cfg : Conf) (confRoot version : String) :
    (NewServer cfg confRoot version).WriteTimeout = 0 ∧
    (NewServer cfg confRoot version).TlsHandshakeTimeout = 0 ∧
    (NewServer cfg confRoot version).ReadTimeout =
      (if cfg.Server.ClientReadTimeout = 0 then 0
       else durationMul (toDuration cfg.Server.ClientReadTimeout) Second) ∧
    (NewServer cfg confRoot version).GracefulShutdownTimeout =
      durationMul (toDuration cfg.Server.GracefulShutdownTimeout) Second ∧
    durationMul (toDuration 0) Second = 0 := by
  refine ⟨?_, ?_, ?_, ?_, ?_⟩
  · show (Server.InitConfig _).WriteTimeout = 0
    rw [initConfig_WriteTimeout]; rfl
  · show (Server.InitConfig _).TlsHandshakeTimeout = 0
    rw [initConfig_TlsHandshakeTimeout]; rfl
  · show (Server.InitConfig _).ReadTimeout = _
    rw [initConfig_ReadTimeout]; rfl
  · show (Server.InitConfig _).GracefulShutdownTimeout = _
    rw [initConfig_GracefulShutdownTimeout]
  · decide

/-- C9, as stated, fails: for `ClientReadTimeout = GracefulShutdownTimeout = 9223372037`
the `int64` product with `time.Second` wraps, and `InitConfig` stores the negative
duration -9223372036709551616 instead of 9223372037 * 10^9 nanoseconds. -/
theorem initConfig_huge_timeout_wraps :
    0 < hugeTimeoutConf.Server.ClientReadTimeout ∧
    0 < hugeTimeoutConf.Server.GracefulShutdownTimeout ∧
    ({ Server.new with Config := hugeTimeoutConf } : Server).InitConfig.ReadTimeout
      = -9223372036709551616 ∧
    ({ Server.new with Config := hugeTimeoutConf } : Server).InitConfig.GracefulShutdownTimeout
      = -9223372036709551616 ∧
    ({ Server.new with Config := hugeTimeoutConf } : Server).InitConfig.ReadTimeout
      ≠ hugeTimeoutConf.Server.ClientReadTimeout * 1000000000 ∧
    ¬ (0 < ({ Server.new with Config := hugeTimeoutConf } : Server).InitConfig.ReadTimeout) := by
  decide

/-- C9, amended: for every server, each timeout on its own: when the configured
`ClientReadTimeout` is `r > 0`, `InitConfig` stores the `int64` product of `r` and
`time.Second` in `ReadTimeout`; this is exactly `r * 10^9` nanoseconds if and only if
`r ≤ 9223372036`, and it is then strictly positive; for every larger `r` the product
wraps and the field is less than `r * 10^9`. The same holds for
`GracefulShutdownTimeout = g > 0` and the field of that name. -/
theorem initConfig_seconds_exact (srv : Server) (r g : Int)
    (hr : srv.Config.Server.ClientReadTimeout = r)
    (hg : srv.Config.Server.GracefulShutdownTimeout = g) :
    (0 < r →
      srv.InitConfig.ReadTimeout = wrapInt64 (wrapInt64 r * 1000000000) ∧
      (srv.InitConfig.ReadTimeout = r * 1000000000 ↔ r ≤ 9223372036) ∧
      (r ≤ 9223372036 → 0 < srv.InitConfig.ReadTimeout) ∧
      (9223372036 < r → srv.InitConfig.ReadTimeout < r * 1000000000)) ∧
    (0 < g →
      srv.InitConfig.GracefulShutdownTimeout = wrapInt64 (wrapInt64 g * 1000000000) ∧
      (srv.InitConfig.GracefulShutdownTimeout = g * 1000000000 ↔ g ≤ 9223372036) ∧
      (g ≤ 9223372036 → 0 < srv.InitConfig.GracefulShutdownTimeout) ∧
      (9223372036 < g → srv.InitConfig.GracefulShutdownTimeout < g * 1000000000)) := by
  constructor
  · intro hr0
    have hne : srv.Config.Server.ClientReadTimeout ≠ 0 := by omega
    have e : srv.InitConfig.ReadTimeout = wrapInt64 (wrapInt64 r * 1000000000) := by
      rw [initConfig_ReadTimeout, if_neg hne, hr]
      rfl
    have big : 9223372036 < r → srv.InitConfig.ReadTimeout < r * 1000000000 := by
      intro h
      rw [e]
      have := wrapInt64_lt (wrapInt64 r * 1000000000)
      omega
    have small : r ≤ 9223372036 → srv.InitConfig.ReadTimeout = r * 1000000000 := by
      intro h
      rw [e]
      exact seconds_exact r (by omega) h
    refine ⟨e, ⟨fun h => ?_, small⟩, fun h => ?_, big⟩
    · by_contra hlt
      have := big (by omega)
      omega
    · rw [small h]; omega
  · intro hg0
    have e : srv.InitConfig.GracefulShutdownTimeout
        = wrapInt64 (wrapInt64 g * 1000000000) := by
      rw [initConfig_GracefulShutdownTimeout, hg]
      rfl
    have big : 9223372036 < g → srv.InitConfig.GracefulShutdownTimeout < g * 1000000000 := by
      intro h
      rw [e]
      have := wrapInt64_lt (wrapInt64 g * 1000000000)
      omega
    have small : g ≤ 9223372036 →
        srv.InitConfig.GracefulShutdownTimeout = g * 1000000000 := by
      intro h
      rw [e]
      exact seconds_exact g (by omega) h
    refine ⟨e, ⟨fun h => ?_, small⟩, fun h => ?_, big⟩
    · by_contra hlt
      have := big (by omega)
      omega
    · rw [small h]; omega

/-- Witness of `initConfig_seconds_exact`: a server configured with a read timeout of
30 s, stored exactly and positive, and a shutdown timeout of 9223372037 s, stored
wrapped. -/
theorem initConfig_seconds_exact_witness :
    ({ Server.new with Config := mixedTimeoutConf } : Server).InitConfig.ReadTimeout
      = 30 * 1000000000 ∧
    0 < ({ Server.new with Config := mixedTimeoutConf } : Server).InitConfig.ReadTimeout ∧
    ({ Server.new with Config := mixedTimeoutConf } : Server).InitConfig.GracefulShutdownTimeout
      < 9223372037 * 1000000000 :=
  ⟨((initConfig_seconds_exact { Server.new with Config := mixedTimeoutConf } 30 9223372037
      rfl rfl).1 (by decide)).2.1.2 (by decide),
   ((initConfig_seconds_exact { Server.new with Config := mixedTimeoutConf } 30 9223372037
      rfl rfl).1 (by decide)).2.2.1 (by decide),
   ((initConfig_seconds_exact { Server.new with Config := mixedTimeoutConf } 30 9223372037
      rfl rfl).2 (by decide)).2.2.2 (by decide)⟩

/-! ## The shutdown sequence on a server that is not yet draining -/

/-- The process at the end of `ShutdownHandler` on a server with a bound listener and an
open channel. -/
theorem shutdownHandler_open (sig : String) (w : Winner) (srv : Server) (l : Listener)
    (hl : srv.listener = some l) (hc : srv.CloseNotifyCh = Chan.open) :
    ShutdownHandler sig w srv =
      { srv := { srv with CloseNotifyCh := Chan.closed, listener := some l.Close.1 }
        events := [signalLog sig srv, Event.closeNotifyCh, Event.listenerClose]
          ++ closeErrEvents l ++ [Event.goConnWait, Event.timeAfter srv.shutdownTimerDuration]
          ++ raceEvents w ++ [Event.loggerClose, Event.osExit 0]
        status := Status.exited 0 } := by
  obtain ⟨a, c, rt, wt, tt, gt, ch, ln, wg, cfg, cr, v⟩ := srv
  simp only at hl hc
  subst hl hc
  obtain ⟨la, lc, ln, le, le2⟩ := l
  cases w <;> cases lc <;> cases le <;> cases le2 <;>
    simp [ShutdownHandler, shutdownSteps, Proc.guard, Proc.start, Proc.emit, Proc.fault,
      Server.closeNotify, Chan.close, closeListeners, Listener.Close, Listener.Addr,
      raceEvents, closeErrEvents, signalLog, Server.shutdownTimerDuration]

/-- C1: for every server whose listener is bound, in the Serving state (the drain gate
not yet signalled: `CloseNotifyCh` open), `ShutdownHandler` performs its effects in this
order:
the first log line, the close of `CloseNotifyCh`, the close of the listener (with its
error log, if any), then the start of the wait on `connWaitGroup` and of the timer, the
`select`, the close of the logger and the exit. In every state the handler goes through
in which the listener has been closed, `CheckGracefulShutdown` returns true, and in
every state in which the wait or the timer has started, both closes have been done. -/
theorem shutdownHandler_order (sig : String) (w : Winner) (srv : Server) (l : Listener)
    (hl : srv.listener = some l) (hc : srv.CloseNotifyCh = Chan.open) :
    (ShutdownHandler sig w srv).events =
      [signalLog sig srv, Event.closeNotifyCh, Event.listenerClose]
        ++ closeErrEvents l ++ [Event.goConnWait, Event.timeAfter srv.shutdownTimerDuration]
        ++ raceEvents w ++ [Event.loggerClose, Event.osExit 0] ∧
    (∀ q ∈ ShutdownHandler.states sig w srv,
      (Event.listenerClose ∈ q.events ∨ q.srv.listener = some l.Close.1) →
        Event.closeNotifyCh ∈ q.events ∧ q.srv.CheckGracefulShutdown = true) ∧
    (∀ q ∈ ShutdownHandler.states sig w srv,
      (Event.goConnWait ∈ q.events ∨ Event.timeAfter srv.shutdownTimerDuration ∈ q.events) →
        Event.closeNotifyCh ∈ q.events ∧ Event.listenerClose ∈ q.events ∧
        q.srv.listener = some l.Close.1 ∧ q.srv.CheckGracefulShutdown = true) := by
  refine ⟨by rw [shutdownHandler_open sig w srv l hl hc], ?_, ?_⟩
  all_goals
    obtain ⟨a, c, rt, wt, tt, gt, ch, ln, wg, cfg, cr, v⟩ := srv
    simp only at hl hc
    subst hl hc
    obtain ⟨la, lc, ln, le, le2⟩ := l
    cases w <;> cases lc <;> cases le <;> cases le2 <;>
      simp [ShutdownHandler.states, shutdownSteps, Proc.guard, Proc.start, Proc.emit, Proc.fault,
        Server.closeNotify, Chan.close, closeListeners, Listener.Close, Listener.Addr,
        Server.shutdownTimerDuration, Server.CheckGracefulShutdown, Chan.recvReady]

/-- Witness of `shutdownHandler_order`: `boundServer`, whose listener is `sampleListener`
and whose channel is open. -/
theorem shutdownHandler_order_witness :
    (ShutdownHandler "quit" Winner.connFin boundServer).events =
      [signalLog "quit" boundServer, Event.closeNotifyCh, Event.listenerClose]
        ++ closeErrEvents sampleListener
        ++ [Event.goConnWait, Event.timeAfter boundServer.shutdownTimerDuration]
        ++ raceEvents Winner.connFin ++ [Event.loggerClose, Event.osExit 0] ∧
    (∀ q ∈ ShutdownHandler.states "quit" Winner.connFin boundServer,
      (Event.listenerClose ∈ q.events ∨ q.srv.listener = some sampleListener.Close.1) →
        Event.closeNotifyCh ∈ q.events ∧ q.srv.CheckGracefulShutdown = true) ∧
    (∀ q ∈ ShutdownHandler.states "quit" Winner.connFin boundServer,
      (Event.goConnWait ∈ q.events ∨
          Event.timeAfter boundServer.shutdownTimerDuration ∈ q.events) →
        Event.closeNotifyCh ∈ q.events ∧ Event.listenerClose ∈ q.events ∧
        q.srv.listener = some sampleListener.Close.1 ∧ q.srv.CheckGracefulShutdown = true) :=
  shutdownHandler_order "quit" Winner.connFin boundServer sampleListener rfl rfl

/-- C3: for every server whose listener is bound, in the Serving state (the drain gate
not yet signalled: `CloseNotifyCh` open), for either winner of the race and whatever
`listener.Close` answers (an error or none), `ShutdownHandler` ends with the close of the logger followed by the exit of the
process with status 0; it has not returned to its caller, it has not panicked, and
nothing before these two effects closes the logger or exits. -/
theorem shutdownHandler_exits_zero (sig : String) (w : Winner) (srv : Server) (l : Listener)
    (hl : srv.listener = some l) (hc : srv.CloseNotifyCh = Chan.open) :
    (ShutdownHandler sig w srv).status = Status.exited 0 ∧
    (ShutdownHandler sig w srv).status ≠ Status.running ∧
    (∃ pre, (ShutdownHandler sig w srv).events = pre ++ [Event.loggerClose, Event.osExit 0] ∧
      Event.loggerClose ∉ pre ∧ (∀ c, Event.osExit c ∉ pre) ∧ (∀ m, Event.goPanic m ∉ pre)) := by
  rw [shutdownHandler_open sig w srv l hl hc]
  refine ⟨rfl, by simp, _, rfl, ?_, ?_, ?_⟩
  · cases w <;> cases h : l.Close.2 <;> simp [raceEvents, closeErrEvents, signalLog, h]
  · intro c
    cases w <;> cases h : l.Close.2 <;> simp [raceEvents, closeErrEvents, signalLog, h]
  · intro m
    cases w <;> cases h : l.Close.2 <;> simp [raceEvents, closeErrEvents, signalLog, h]

/-- Witness of `shutdownHandler_exits_zero`: `boundServer` with a listener whose `Close`
answers an error, the timer winning the race. -/
theorem shutdownHandler_exits_zero_witness :
    (ShutdownHandler "quit" Winner.timer
      { boundServer with listener := some { sampleListener with closeErr := some "EBADF" } }).status
        = Status.exited 0 :=
  (shutdownHandler_exits_zero "quit" Winner.timer
    { boundServer with listener := some { sampleListener with closeErr := some "EBADF" } }
    { sampleListener with closeErr := some "EBADF" } rfl rfl).1

/-! ## The shutdown sequence on a server that is already draining -/

/-- C4, as stated, fails: `drainingServer` is `boundServer` while a first
`ShutdownHandler` waits in its `select` (still running); a second `ShutdownHandler` on
it is not a no-op, it faults with the panic `close of closed channel`. -/
theorem shutdownHandler_second_call_faults :
    (∃ q ∈ ShutdownHandler.states "quit" Winner.timer boundServer,
      q.status = Status.running ∧ q.srv = drainingServer) ∧
    (ShutdownHandler "quit" Winner.timer drainingServer).status
      = Status.panicked "close of closed channel" ∧
    Event.goPanic "close of closed channel"
      ∈ (ShutdownHandler "quit" Winner.timer drainingServer).events := by
  decide

/-- C4, amended: `ShutdownHandler` called on a server that is already draining
(`CloseNotifyCh` already closed) leaves the server as it is, so it does not call
`listener.Close` again, and starts neither a wait on `connWaitGroup` nor a timer; but it
is not a no-op: after its first log line it faults with the run-time panic
`close of closed channel`. -/
theorem shutdownHandler_when_draining (sig : String) (w : Winner) (srv : Server)
    (hc : srv.CloseNotifyCh = Chan.closed) :
    ShutdownHandler sig w srv =
      { srv := srv
        events := [signalLog sig srv, Event.goPanic "close of closed channel"]
        status := Status.panicked "close of closed channel" } ∧
    (ShutdownHandler sig w srv).srv.listener = srv.listener ∧
    Event.listenerClose ∉ (ShutdownHandler sig w srv).events ∧
    Event.goConnWait ∉ (ShutdownHandler sig w srv).events ∧
    (∀ d, Event.timeAfter d ∉ (ShutdownHandler sig w srv).events) := by
  have key : ShutdownHandler sig w srv =
      { srv := srv
        events := [signalLog sig srv, Event.goPanic "close of closed channel"]
        status := Status.panicked "close of closed channel" } := by
    obtain ⟨a, c, rt, wt, tt, gt, ch, ln, wg, cfg, cr, v⟩ := srv
    simp only at hc
    subst hc
    simp [ShutdownHandler, shutdownSteps, Proc.guard, Proc.start, Proc.emit, Proc.fault,
      Server.closeNotify, Chan.close, signalLog]
  rw [key]
  simp [signalLog]

/-- Witness of `shutdownHandler_when_draining`: `drainingServer`, whose listener has
been closed once and stays so. -/
theorem shutdownHandler_when_draining_witness :
    (ShutdownHandler "quit" Winner.timer drainingServer).srv.listener
      = some { sampleListener with closed := true, closeCalls := 1 } ∧
    Event.listenerClose ∉ (ShutdownHandler "quit" Winner.timer drainingServer).events :=
  ⟨(shutdownHandler_when_draining "quit" Winner.timer drainingServer rfl).2.1,
   (shutdownHandler_when_draining "quit" Winner.timer drainingServer rfl).2.2.1⟩

/-! ## The drain signal -/

/-- C5, as stated, fails: the server `NewServer` returns accepts one
`close(srv.CloseNotifyCh)`, and the same statement on the resulting server panics with
`close of closed channel`. -/
theorem closeNotify_twice_panics :
    ∃ s1, (NewServer sampleConf "/conf" "1.0").closeNotify = Except.ok s1 ∧
      s1.closeNotify = Except.error "close of closed channel" := by
  exact ⟨_, rfl, rfl⟩

/-- C5, amended: on a server whose `CloseNotifyCh` is open, `close(srv.CloseNotifyCh)`
does not fault and leaves `CheckGracefulShutdown` true and every other field
unchanged; the same statement on the resulting server (the channel now closed) panics
with `close of closed channel`, so a second signal is a fault, not a no-op. -/
theorem closeNotify_once_then_panics (srv : Server) (hc : srv.CloseNotifyCh = Chan.open) :
    srv.closeNotify = Except.ok { srv with CloseNotifyCh := Chan.closed } ∧
    ({ srv with CloseNotifyCh := Chan.closed } : Server).CheckGracefulShutdown = true ∧
    ({ srv with CloseNotifyCh := Chan.closed } : Server).closeNotify
      = Except.error "close of closed channel" := by
  refine ⟨?_, rfl, rfl⟩
  simp [Server.closeNotify, hc, Chan.close]

/-- Witness of `closeNotify_once_then_panics`: the server `NewServer` returns. -/
theorem closeNotify_once_then_panics_witness :
    (NewServer zeroTimeoutConf "/conf" "1.0").closeNotify
      = Except.ok { NewServer zeroTimeoutConf "/conf" "1.0" with CloseNotifyCh := Chan.closed } :=
  (closeNotify_once_then_panics (NewServer zeroTimeoutConf "/conf" "1.0") rfl).1

/-! ## The hand-off to the accept loop -/

/-- C7, on the code: for every configuration and every `Serve`, `StartServer` hands
over with `Serve(s, nil, nil, "tcp")`: at the call of `ServeSocks` the listener field of
the server is nil, since neither `NewServer` nor `InitSocks` binds it, while
`CheckGracefulShutdown` returns false. The claim's "listener bound" does not hold. -/
theorem startServer_handoff_listener_nil
    (Serve : Server → Option Listener → Option Listener → String → Option String)
    (cfg : Conf) (version confRoot : String) :
    StartServer Serve cfg version confRoot
      = Serve (NewServer cfg confRoot version) none none "tcp" ∧
    (NewServer cfg confRoot version).listener = none ∧
    (NewServer cfg confRoot version).CheckGracefulShutdown = false := by
  have hl : (NewServer cfg confRoot version).listener = none := by
    show (Server.InitConfig _).listener = none
    rw [initConfig_listener]; rfl
  refine ⟨?_, hl, rfl⟩
  simp only [StartServer, Server.InitSocks, Server.ServeSocks, hl]

/-! ## The timer of the shutdown sequence -/

/-- C10: for every configuration, the duration `ShutdownHandler` computes for its timer
on the server `NewServer` returns equals the field `GracefulShutdownTimeout` that
`InitConfig` stored; and once a listener is bound to that server (the configuration
untouched), the timer `ShutdownHandler` starts has that duration. -/
theorem shutdownTimer_eq_stored (cfg : Conf) (confRoot version : String) (l : Listener)
    (sig : String) (w : Winner) :
    (NewServer cfg confRoot version).shutdownTimerDuration
      = (NewServer cfg confRoot version).GracefulShutdownTimeout ∧
    Event.timeAfter (NewServer cfg confRoot version).GracefulShutdownTimeout
      ∈ (ShutdownHandler sig w
          { NewServer cfg confRoot version with listener := some l }).events := by
  have hcfg : (NewServer cfg confRoot version).Config = cfg := by
    show (Server.InitConfig _).Config = cfg
    rw [initConfig_Config]
  have hg : (NewServer cfg confRoot version).GracefulShutdownTimeout
      = durationMul (toDuration cfg.Server.GracefulShutdownTimeout) Second := by
    show (Server.InitConfig _).GracefulShutdownTimeout = _
    rw [initConfig_GracefulShutdownTimeout]
  have h1 : (NewServer cfg confRoot version).shutdownTimerDuration
      = (NewServer cfg confRoot version).GracefulShutdownTimeout := by
    rw [hg, Server.shutdownTimerDuration, hcfg]
  refine ⟨h1, ?_⟩
  rw [shutdownHandler_open sig w _ l rfl rfl]
  have h2 : ({ NewServer cfg confRoot version with listener := some l } :
      Server).shutdownTimerDuration = (NewServer cfg confRoot version).shutdownTimerDuration := rfl
  rw [h2, h1]
  simp

/-! ## The drain flag over the operations of `server.go` -/

/-- Reading the heap after a method was applied at address `i`. -/
theorem heap_getElem?_update (h : Heap) (i j : Nat) (f : Server → Server) :
    (h.update i f)[j]? = if i = j then h[j]?.map f else h[j]? := by
  unfold Heap.update
  cases hi : h[i]? with
  | none =>
    by_cases hij : i = j
    · subst hij; simp [hi]
    · simp [hij]
  | some s =>
    by_cases hij : i = j
    · subst hij
      have hlt : i < h.length := (List.getElem?_eq_some.mp hi).1
      simp [List.getElem?_set, hlt, hi]
    · simp [List.getElem?_set, hij]

/-- A method that keeps `CloseNotifyCh` keeps the gate of every server. -/
theorem heap_gate_update (h : Heap) (i j : Nat) (f : Server → Server)
    (hf : ∀ s, (f s).CloseNotifyCh = s.CloseNotifyCh) :
    (h.update i f).gate j = h.gate j := by
  unfold Heap.gate
  rw [heap_getElem?_update]
  by_cases hij : i = j
  · simp only [hij, if_true, Option.map_map]
    congr 1
    funext s
    exact hf s
  · simp only [hij, if_false]

/-- `closeListeners` leaves `CloseNotifyCh` as it is, whether it panics or not. -/
theorem closeListeners_CloseNotifyCh (s : Server) :
    (closeListeners (Proc.start s)).srv.CloseNotifyCh = s.CloseNotifyCh := by
  unfold closeListeners
  cases hl : s.listener with
  | none => simp [Proc.start, Proc.fault, hl]
  | some l =>
    obtain ⟨la, lc, ln, le, le2⟩ := l
    cases lc <;> cases le <;> cases le2 <;> simp [Proc.start, Proc.emit, Listener.Close, hl]

/-- No operation changes the gate of an allocated server. -/
theorem heap_gate_exec (op : Op) (h : Heap) (j : Nat) (c : Chan) (hg : h.gate j = some c) :
    (op.exec h).gate j = some c := by
  cases op with
  | NewServer cfg confRoot version =>
    have hlt : j < h.length := by
      unfold Heap.gate at hg
      cases hj : h[j]? with
      | none => simp [hj] at hg
      | some s => exact (List.getElem?_eq_some.mp hj).1
    unfold Heap.gate at hg ⊢
    show Option.map Server.CloseNotifyCh (h ++ [NewServer cfg confRoot version])[j]? = some c
    rw [List.getElem?_append_left hlt]
    exact hg
  | InitConfig i =>
    show (h.update i Server.InitConfig).gate j = some c
    rw [heap_gate_update h i j _ initConfig_CloseNotifyCh]
    exact hg
  | InitSocks i =>
    show (h.update i _).gate j = some c
    rw [heap_gate_update h i j _ (fun _ => rfl)]
    exact hg
  | closeListeners i =>
    show (h.update i _).gate j = some c
    rw [heap_gate_update h i j _ closeListeners_CloseNotifyCh]
    exact hg
  | CheckGracefulShutdown i =>
    show (h.update i _).gate j = some c
    rw [heap_gate_update h i j _ (fun _ => rfl)]
    exact hg

/-- No sequence of operations changes the gate of an allocated server. -/
theorem heap_gate_run (ops : List Op) (h : Heap) (j : Nat) (c : Chan)
    (hg : h.gate j = some c) : (Heap.run ops h).gate j = some c := by
  induction ops generalizing h with
  | nil => exact hg
  | cons op ops ih =>
    show (Heap.run ops (op.exec h)).gate j = some c
    exact ih (op.exec h) (heap_gate_exec op h j c hg)

/-- The answer of `CheckGracefulShutdown` is read off the gate. -/
theorem heap_check_eq (h : Heap) (j : Nat) :
    h.check j = (h.gate j).map Chan.recvReady := by
  unfold Heap.check Heap.gate
  cases h[j]? with
  | none => rfl
  | some s =>
    simp only [Option.map_some', Server.CheckGracefulShutdown]
    cases s.CloseNotifyCh.recvReady <;> rfl

/-- A true answer means a closed channel. -/
theorem heap_gate_of_check_true (h : Heap) (j : Nat) (hc : h.check j = some true) :
    h.gate j = some Chan.closed := by
  rw [heap_check_eq] at hc
  cases hg : h.gate j with
  | none => simp [hg] at hc
  | some c =>
    cases c <;> simp [hg, Chan.recvReady] at hc
    rfl

/-- On an open channel `close(srv.CloseNotifyCh)` succeeds and closes it. -/
theorem heap_closeNotify_open (h : Heap) (j : Nat) (hg : h.gate j = some Chan.open) :
    ∃ h2, h.closeNotify j = Except.ok h2 ∧ h2.gate j = some Chan.closed := by
  unfold Heap.gate at hg
  cases hj : h[j]? with
  | none => simp [hj] at hg
  | some s =>
    have hs : s.CloseNotifyCh = Chan.open := by simpa [hj] using hg
    have hlt : j < h.length := (List.getElem?_eq_some.mp hj).1
    refine ⟨h.set j { s with CloseNotifyCh := Chan.closed }, ?_, ?_⟩
    · simp [Heap.closeNotify, hj, Server.closeNotify, hs, Chan.close]
    · simp [Heap.gate, List.getElem?_set, hlt]

/-- C2: for every server `NewServer` returns (allocated at address `h.length` of any
heap `h`), (1) after any sequence of operations of `server.go` other than the shutdown
handler, thus before `CloseNotifyCh` is closed and in particular right after
`NewServer`, `CheckGracefulShutdown` returns false; (2) the statement
`close(srv.CloseNotifyCh)` then succeeds, and after it, and after any further sequence
of these operations, `CheckGracefulShutdown` returns true; (3) on any server, none of
`NewServer`, `InitConfig`, `InitSocks`, `closeListeners`, `CheckGracefulShutdown`
turns a true answer into another one; (4) in every state `ShutdownHandler` goes through
on such a server, with or without a listener bound, `CheckGracefulShutdown` returns
true exactly when the step `close(srv.CloseNotifyCh)` has executed. -/
theorem checkGracefulShutdown_flag (h : Heap) (cfg : Conf) (confRoot version : String)
    (ops : List Op) :
    (Heap.run ops ((Op.NewServer cfg confRoot version).exec h)).check h.length = some false ∧
    (∃ h2, (Heap.run ops ((Op.NewServer cfg confRoot version).exec h)).closeNotify h.length
        = Except.ok h2 ∧
      ∀ ops2, (Heap.run ops2 h2).check h.length = some true) ∧
    (∀ (g : Heap) (j : Nat) (op : Op), g.check j = some true →
      (op.exec g).check j = some true) ∧
    (∀ (lo : Option Listener) (sig : String) (w : Winner),
      ∀ q ∈ ShutdownHandler.states sig w { NewServer cfg confRoot version with listener := lo },
        (q.srv.CheckGracefulShutdown = true ↔ Event.closeNotifyCh ∈ q.events)) := by
  have h0 : ((Op.NewServer cfg confRoot version).exec h).gate h.length = some Chan.open := by
    show Option.map Server.CloseNotifyCh (h ++ [NewServer cfg confRoot version])[h.length]?
      = some Chan.open
    rw [List.getElem?_concat_length]
    rfl
  have h1 := heap_gate_run ops _ h.length Chan.open h0
  refine ⟨?_, ?_, ?_, ?_⟩
  · rw [heap_check_eq, h1]; rfl
  · obtain ⟨h2, e2, g2⟩ := heap_closeNotify_open _ _ h1
    refine ⟨h2, e2, fun ops2 => ?_⟩
    rw [heap_check_eq, heap_gate_run ops2 h2 h.length Chan.closed g2]; rfl
  · intro g j op hc
    rw [heap_check_eq, heap_gate_exec op g j Chan.closed (heap_gate_of_check_true g j hc)]; rfl
  · intro lo sig w
    have hch : ({ NewServer cfg confRoot version with listener := lo } : Server).CloseNotifyCh
        = Chan.open := rfl
    generalize ({ NewServer cfg confRoot version with listener := lo } : Server) = s at hch
    have hlo : ∃ lo1, s.listener = lo1 := ⟨_, rfl⟩
    obtain ⟨lo1, hlo⟩ := hlo
    obtain ⟨a, c, rt, wt, tt, gt, ch, ln, wg, cf, cr, v⟩ := s
    simp only at hch hlo
    subst hch hlo
    cases ln with
    | none =>
      cases w <;>
        simp [ShutdownHandler.states, shutdownSteps, Proc.guard, Proc.start, Proc.emit,
          Proc.fault, Server.closeNotify, Chan.close, closeListeners,
          Server.CheckGracefulShutdown, Chan.recvReady]
    | some l =>
      obtain ⟨la, lc, ln, le, le2⟩ := l
      cases w <;> cases lc <;> cases le <;> cases le2 <;>
        simp [ShutdownHandler.states, shutdownSteps, Proc.guard, Proc.start, Proc.emit,
          Proc.fault, Server.closeNotify, Chan.close, closeListeners, Listener.Close,
          Listener.Addr, Server.CheckGracefulShutdown, Chan.recvReady]

/-- An instance of `checkGracefulShutdown_flag`: a server allocated by `NewServer` from
`sampleConf` answers false after `InitConfig`, `InitSocks`, `closeListeners` and
`CheckGracefulShutdown`, and the draining server keeps answering true through
`closeListeners`. -/
theorem checkGracefulShutdown_flag_witness :
    (Heap.run [Op.InitConfig 0, Op.InitSocks 0, Op.closeListeners 0, Op.CheckGracefulShutdown 0]
      ((Op.NewServer sampleConf "/conf" "1.0").exec [])).check 0 = some false ∧
    ((Op.closeListeners 0).exec [drainingServer]).check 0 = some true :=
  ⟨(checkGracefulShutdown_flag [] sampleConf "/conf" "1.0"
      [Op.InitConfig 0, Op.InitSocks 0, Op.closeListeners 0, Op.CheckGracefulShutdown 0]).1,
   (checkGracefulShutdown_flag [] sampleConf "/conf" "1.0" []).2.2.1
      [drainingServer] 0 (Op.closeListeners 0) (by decide)⟩

end MiniProxy
